import Mathlib

/-!
Shallow embedding of the wmbusmeters Sharky775 heat-meter driver
(src/meter_sharky775.cc) together with the core DV-parsing engine it calls
(unit/quantity model, DV record scanner, field decoder, key/selector matcher).
The driver code is translated from the source file; the core engine is not part
of the analysed sources, so its operations are modelled from the design
specification (each such definition is marked in its doc comment).

Doubles are modelled as rationals; byte values are naturals.
-/

namespace Wmbus

/-- Modelled from the spec: the closed set of physical quantities used by this
meter family (section 3, Unit/Quantity pair). -/
inductive Quantity where
  | Energy
  | Power
  | Volume
  | Text
  | Date
  deriving DecidableEq, BEq

/-- Modelled from the spec: the units convertible within the quantities of
this meter family: Energy (kWh native; MJ, GJ, Wh), Power (kW native; W),
Volume (m3 native; L). -/
inductive Unit where
  | KWH
  | MJ
  | GJ
  | WH
  | KW
  | W
  | M3
  | L
  deriving DecidableEq, BEq

/-- Modelled from the spec: the quantity family each unit belongs to. -/
def quantityOf : Unit → Quantity
  | Unit.KWH => Quantity.Energy
  | Unit.MJ => Quantity.Energy
  | Unit.GJ => Quantity.Energy
  | Unit.WH => Quantity.Energy
  | Unit.KW => Quantity.Power
  | Unit.W => Quantity.Power
  | Unit.M3 => Quantity.Volume
  | Unit.L => Quantity.Volume

/-- Modelled from the spec: the linear scale factor of each unit, expressed in
a fixed base unit of its quantity (joules for energy, watts for power, litres
for volume); conversion divides two of these scales, so only their ratios
matter. -/
def scale : Unit → ℚ
  | Unit.KWH => 3600000
  | Unit.MJ => 1000000
  | Unit.GJ => 1000000000
  | Unit.WH => 3600
  | Unit.KW => 1000
  | Unit.W => 1
  | Unit.M3 => 1000
  | Unit.L => 1

/-- Modelled from the spec: conversion is a pure linear scale
value_in_to = value_in_from * scale(from) / scale(to), with no offset term. -/
def convert (v : ℚ) (f t : Unit) : ℚ :=
  v * scale f / scale t

/-- Modelled from the spec: assertQuantity(unit, expected_quantity) fails fast
if the unit does not belong to the expected quantity family.  The boolean is
true exactly when the assertion passes. -/
def assertQuantity (u : Unit) (q : Quantity) : Bool :=
  decide (quantityOf u = q)

/-- Modelled from the spec: measurement type decoded from the DIF
function-field bits (00 instantaneous, 01 max, 10 min, 11 error), plus the
wildcard Unknown used by selectors. -/
inductive MeasurementType where
  | Instantaneous
  | Maximum
  | Minimum
  | AtError
  | Unknown
  deriving DecidableEq, BEq

/-- Modelled from the spec: the value-information families this meter family
acts upon, decoded from the VIF byte; unknown codes still produce a
descriptor so offsets stay accurate. -/
inductive ValueInformation where
  | EnergyWh
  | Volume
  | PowerW
  | Date
  | VendorExtension
  | Unknown
  deriving DecidableEq, BEq

/-- Modelled from the spec: the record descriptor produced by the DV record
scanner, one per decoded DIF/VIF group (section 3).  The key is the hex string
of the DIF..VIFE header bytes; offset is the payload start offset; scaleExp is
the VIF-derived power-of-ten exponent taking the raw integer payload to the
quantity's native unit (kWh, kW, m3). -/
structure DVEntry where
  key : String
  measurement_type : MeasurementType
  value_information : ValueInformation
  storage_nr : Nat
  tariff : Nat
  offset : Nat
  payload : List Nat
  scaleExp : Int
  deriving DecidableEq

/-- Structured stand-in for the printf-formatted explanation strings the
driver attaches to the telegram via addMoreExplanation. -/
inductive Explanation where
  | infoCodes (s : String)
  | totalEnergy (v : ℚ)
  | totalVolume (v : ℚ)
  | targetEnergy (v : ℚ)
  | currentPower (v : ℚ)
  | targetDate (s : String)
  deriving DecidableEq

/-- A telegram: its (already decrypted) payload bytes, the record map produced
by the scanner, and the mutable annotation side-channel of
(byte offset, explanation) pairs. -/
structure Telegram where
  payload : List Nat
  values : List DVEntry
  explanations : List (Int × Explanation)
  deriving DecidableEq

/-- Appends one diagnostic explanation to the telegram's side-channel. -/
def addMoreExplanation (t : Telegram) (off : Int) (e : Explanation) : Telegram :=
  { t with explanations := t.explanations ++ [(off, e)] }

/-- Modelled from the spec: the key/selector matching rule — exact match on
all four fields when measurement_type is not the wildcard Unknown; when
wildcard, match on the other three fields ignoring measurement_type. -/
def dvMatches (mt : MeasurementType) (vi : ValueInformation) (st tr : Nat)
    (e : DVEntry) : Bool :=
  decide ((mt = MeasurementType.Unknown ∨ e.measurement_type = mt)
    ∧ e.value_information = vi ∧ e.storage_nr = st ∧ e.tariff = tr)

/-- Modelled from the spec: findKey resolves a semantic selector to the key of
the first record (in byte order) satisfying it; no match means the caller
treats the measurement as absent. -/
def findKey (mt : MeasurementType) (vi : ValueInformation) (st tr : Nat)
    (values : List DVEntry) : Option String :=
  (values.find? (dvMatches mt vi st tr)).map DVEntry.key

/-- Looks up the first record stored under a key (the record map keyed by the
DIF/VIF hex string). -/
def lookupKey (values : List DVEntry) (key : String) : Option DVEntry :=
  values.find? (fun e => decide (e.key = key))

/-- Little-endian interpretation of payload bytes as an unsigned integer. -/
def payloadLE : List Nat → Nat
  | [] => 0
  | b :: bs => b + 256 * payloadLE bs

/-- Power-of-ten scaling by a (possibly negative) decimal exponent. -/
def tenPow : Int → ℚ
  | Int.ofNat n => (10 : ℚ) ^ n
  | Int.negSucc n => 1 / (10 : ℚ) ^ (n + 1)

/-- Modelled from the spec: the field decoder's numeric output for a record —
the little-endian integer payload scaled by the VIF-derived power-of-ten
exponent into the quantity's native unit. -/
def dvValue (e : DVEntry) : ℚ :=
  (payloadLE e.payload : ℚ) * tenPow e.scaleExp

/-- Modelled from the spec: extractDVuint8 decodes the record stored under the
given key as an 8-bit value, reporting its byte offset; none when the key is
absent from the record map. -/
def extractDVuint8 (values : List DVEntry) (key : String) : Option (Nat × Nat) :=
  (lookupKey values key).map (fun e => (e.offset, e.payload.headD 0))

/-- Modelled from the spec: extractDVdouble decodes the record stored under
the given key as a scaled numeric value in the native unit, reporting its
byte offset; none when the key is absent. -/
def extractDVdouble (values : List DVEntry) (key : String) : Option (Nat × ℚ) :=
  (lookupKey values key).map (fun e => (e.offset, dvValue e))

/-- A decoded type-G calendar date (no time component). -/
structure DateG where
  year : Nat
  month : Nat
  day : Nat
  deriving DecidableEq

/-- Modelled from the spec: the type-G 16-bit packed date decoder — day in the
low 5 bits of the first byte, month in the low 4 bits of the second byte, and
the year split as 3 low bits (first byte, bits 5-7) plus 4 high bits (second
byte, bits 4-7). -/
def decodeDateG (lo hi : Nat) : DateG :=
  { year := 2000 + lo / 32 + hi / 16 * 8, month := hi % 16, day := lo % 32 }

/-- Modelled from the spec: extractDVdate decodes the record stored under the
given key as a packed type-G date, reporting its byte offset; none when the
key is absent. -/
def extractDVdate (values : List DVEntry) (key : String) : Option (Nat × DateG) :=
  (lookupKey values key).map
    (fun e => (e.offset, decodeDateG (e.payload.headD 0) ((e.payload.drop 1).headD 0)))

/-- Two-digit decimal rendering used in formatted dates. -/
def pad2 (n : Nat) : String :=
  if n < 10 then "0" ++ toString n else toString n

/-- Modelled from the spec: strdatetime formats a decoded date; a type-G date
has no time component, rendered as 00:00 (as in the driver's trace comment). -/
def strdatetime (d : DateG) : String :=
  toString d.year ++ "-" ++ pad2 d.month ++ "-" ++ pad2 d.day ++ " 00:00"

/-- Modelled from the spec: payload byte length determined purely from the DIF
data-field bits; codes outside the implemented binary-width variants are an
UnsupportedEncoding failure. -/
def payloadLen : Nat → Option Nat
  | 0 => some 0
  | 1 => some 1
  | 2 => some 2
  | 3 => some 3
  | 4 => some 4
  | 5 => some 4
  | 6 => some 6
  | 7 => some 8
  | _ => none

/-- Modelled from the spec: the DIF function-field bits (00 instantaneous,
01 max, 10 min, 11 error). -/
def functionField : Nat → MeasurementType
  | 0 => MeasurementType.Instantaneous
  | 1 => MeasurementType.Maximum
  | 2 => MeasurementType.Minimum
  | _ => MeasurementType.AtError

/-- Hex rendering of a nibble. -/
def hexDigit : Nat → String
  | 0 => "0"
  | 1 => "1"
  | 2 => "2"
  | 3 => "3"
  | 4 => "4"
  | 5 => "5"
  | 6 => "6"
  | 7 => "7"
  | 8 => "8"
  | 9 => "9"
  | 10 => "A"
  | 11 => "B"
  | 12 => "C"
  | 13 => "D"
  | 14 => "E"
  | _ => "F"

/-- Hex rendering of a byte. -/
def hexByte (n : Nat) : String :=
  hexDigit (n / 16 % 16) ++ hexDigit (n % 16)

/-- Hex key string of a record's DIF..VIFE header bytes. -/
def hexKey (bs : List Nat) : String :=
  String.join (bs.map hexByte)

/-- Modelled from the spec: reads the chained DIFE bytes of a record — each
contributes 4 higher-order storage-number bits (bits 0-3) and 2 tariff bits
(bits 4-5), with bit 7 as the continuation flag — bounded by a maximum chain
length (MalformedDIFChain guard).  Returns the accumulated storage number and
tariff, the consumed bytes, and the remaining stream. -/
def readDifes : Nat → Nat → Nat → Nat → List Nat → Option (Nat × Nat × List Nat × List Nat)
  | 0, _, _, _, _ => none
  | _ + 1, _, _, _, [] => none
  | fuel + 1, storage, tariff, lvl, b :: bs =>
    let storage2 := storage + b % 16 * 2 ^ (1 + 4 * lvl)
    let tariff2 := tariff + b / 16 % 4 * 4 ^ lvl
    if b ≥ 128 then
      match readDifes fuel storage2 tariff2 (lvl + 1) bs with
      | none => none
      | some (s, tr, consumed, r) => some (s, tr, b :: consumed, r)
    else some (storage2, tariff2, [b], bs)

/-- Modelled from the spec: consumes a chain of VIFE bytes (first byte always
consumed, continuing while bit 7 is set), bounded by a maximum chain length. -/
def takeVifes : Nat → List Nat → Option (List Nat × List Nat)
  | 0, _ => none
  | _ + 1, [] => none
  | fuel + 1, b :: bs =>
    if b ≥ 128 then
      match takeVifes fuel bs with
      | none => none
      | some (c, r) => some (b :: c, r)
    else some ([b], bs)

/-- Modelled from the spec: the base VIF code table — energy codes 0x00-0x07
are 10^(n-3) Wh, volume codes 0x10-0x17 are 10^(n-6) m3, power codes
0x28-0x2F are 10^(n-3) W, 0x6C is the type-G date; the exponent returned
takes the raw payload integer to the quantity's native unit (kWh, m3, kW).
Unknown codes still yield a descriptor with ValueInformation.Unknown. -/
def vifBase (v : Nat) : ValueInformation × Int :=
  if v ≤ 7 then (ValueInformation.EnergyWh, (v : Int) - 6)
  else if 16 ≤ v ∧ v ≤ 23 then (ValueInformation.Volume, (v : Int) - 22)
  else if 40 ≤ v ∧ v ≤ 47 then (ValueInformation.PowerW, (v : Int) - 46)
  else if v = 108 then (ValueInformation.Date, 0)
  else (ValueInformation.Unknown, 0)

/-- Modelled from the spec: the DV record scanner loop — reads a DIF byte
(function field, storage LSB, data field) and its DIFE chain, then a VIF byte
and its VIFE chain (VIF 0xFF switches to the vendor-extension namespace),
determines the payload length from the DIF data field, records a descriptor
keyed by the hex of the header bytes, and advances past the payload.  A
payload running past the end of the stream, a malformed chain, or an
unsupported encoding fails the whole scan.  The fuel argument bounds the
recursion by the stream length. -/
def scanGo : Nat → Nat → List Nat → Option (List DVEntry)
  | _, _, [] => some []
  | 0, _, _ :: _ => none
  | fuel + 1, pos, dif :: rest =>
    let mt := functionField (dif / 16 % 4)
    match payloadLen (dif % 16) with
    | none => none
    | some len =>
      match
        if dif ≥ 128 then readDifes 10 (dif / 64 % 2) 0 0 rest
        else some (dif / 64 % 2, 0, ([] : List Nat), rest) with
      | none => none
      | some (storage, tariff, difeBytes, rest1) =>
        match rest1 with
        | [] => none
        | vif :: rest2 =>
          match
            if vif ≥ 128 then takeVifes 10 rest2
            else some (([] : List Nat), rest2) with
          | none => none
          | some (vifeBytes, rest3) =>
            let vx :=
              if vif = 255 then (ValueInformation.VendorExtension, (0 : Int))
              else vifBase (vif % 128)
            let header := dif :: difeBytes ++ vif :: vifeBytes
            if len ≤ rest3.length then
              let e : DVEntry :=
                { key := hexKey header
                  measurement_type := mt
                  value_information := vx.1
                  storage_nr := storage
                  tariff := tariff
                  offset := pos + header.length
                  payload := rest3.take len
                  scaleExp := vx.2 }
              match scanGo fuel (pos + header.length + len) (rest3.drop len) with
              | none => none
              | some es => some (e :: es)
            else none

/-- Modelled from the spec: scan(bytes) walks the whole telegram body and
yields its record list in byte order, or fails as a whole. -/
def scan (bs : List Nat) : Option (List DVEntry) :=
  scanGo bs.length 0 bs

/-- The Sharky775 driver's private sticky fields (meter_sharky775.cc lines
38-43), value-initialised as in the source. -/
structure Sharky775 where
  info_codes_ : Nat
  total_energy_kwh_ : ℚ
  target_energy_kwh_ : ℚ
  current_power_kw_ : ℚ
  total_volume_m3_ : ℚ
  target_date_ : String
  deriving DecidableEq

/-- The freshly constructed driver state: all fields value-initialised. -/
def initSharky775 : Sharky775 :=
  { info_codes_ := 0
    total_energy_kwh_ := 0
    target_energy_kwh_ := 0
    current_power_kw_ := 0
    total_volume_m3_ := 0
    target_date_ := "" }

/-- Sharky775::status — builds an empty string and returns it, regardless of
the decoded info codes (an unimplemented stub in the source). -/
def Sharky775.status (_m : Sharky775) : String :=
  ""

/-- Sharky775::totalEnergyConsumption — asserts the requested unit is an
Energy unit (fail-fast, modelled as none) and converts the stored kWh value. -/
def Sharky775.totalEnergyConsumption (m : Sharky775) (u : Unit) : Option ℚ :=
  if assertQuantity u Quantity.Energy then
    some (convert m.total_energy_kwh_ Unit.KWH u)
  else none

/-- Sharky775::targetEnergyConsumption — Energy assertion, then conversion of
the stored kWh value. -/
def Sharky775.targetEnergyConsumption (m : Sharky775) (u : Unit) : Option ℚ :=
  if assertQuantity u Quantity.Energy then
    some (convert m.target_energy_kwh_ Unit.KWH u)
  else none

/-- Sharky775::totalVolume — Volume assertion, then conversion of the stored
m3 value. -/
def Sharky775.totalVolume (m : Sharky775) (u : Unit) : Option ℚ :=
  if assertQuantity u Quantity.Volume then
    some (convert m.total_volume_m3_ Unit.M3 u)
  else none

/-- Sharky775::currentPowerConsumption — Power assertion, then conversion of
the stored kW value. -/
def Sharky775.currentPowerConsumption (m : Sharky775) (u : Unit) : Option ℚ :=
  if assertQuantity u Quantity.Power then
    some (convert m.current_power_kw_ Unit.KW u)
  else none

/-- First step of Sharky775::processContent (lines 141-142): extract the
info codes under the hard-coded key 01FF21 and annotate unconditionally.  On
a missing key the extraction leaves the sticky field intact (per the spec's
sticky-state rule) and reports offset -1. -/
def applyInfoCodes (m : Sharky775) (t : Telegram) : Sharky775 × Telegram :=
  match extractDVuint8 t.values "01FF21" with
  | some (o, v) =>
    let m2 := { m with info_codes_ := v }
    (m2, addMoreExplanation t (Int.ofNat o) (Explanation.infoCodes m2.status))
  | none =>
    (m, addMoreExplanation t (-1) (Explanation.infoCodes m.status))

/-- Guarded extraction of the total energy (lines 144-147): only when findKey
succeeds for (Instantaneous, EnergyWh, storage 0, tariff 0). -/
def applyTotalEnergy (m : Sharky775) (t : Telegram) : Sharky775 × Telegram :=
  match findKey MeasurementType.Instantaneous ValueInformation.EnergyWh 0 0 t.values with
  | none => (m, t)
  | some key =>
    match extractDVdouble t.values key with
    | none => (m, t)
    | some (o, v) =>
      ({ m with total_energy_kwh_ := v },
        addMoreExplanation t (Int.ofNat o) (Explanation.totalEnergy v))

/-- Guarded extraction of the total volume (lines 149-152): selector
(Instantaneous, Volume, storage 0, tariff 0). -/
def applyTotalVolume (m : Sharky775) (t : Telegram) : Sharky775 × Telegram :=
  match findKey MeasurementType.Instantaneous ValueInformation.Volume 0 0 t.values with
  | none => (m, t)
  | some key =>
    match extractDVdouble t.values key with
    | none => (m, t)
    | some (o, v) =>
      ({ m with total_volume_m3_ := v },
        addMoreExplanation t (Int.ofNat o) (Explanation.totalVolume v))

/-- Guarded extraction of the target energy (lines 154-157): selector
(Instantaneous, EnergyWh, storage 1, tariff 0). -/
def applyTargetEnergy (m : Sharky775) (t : Telegram) : Sharky775 × Telegram :=
  match findKey MeasurementType.Instantaneous ValueInformation.EnergyWh 1 0 t.values with
  | none => (m, t)
  | some key =>
    match extractDVdouble t.values key with
    | none => (m, t)
    | some (o, v) =>
      ({ m with target_energy_kwh_ := v },
        addMoreExplanation t (Int.ofNat o) (Explanation.targetEnergy v))

/-- Guarded extraction of the current power (lines 159-162): selector
(Instantaneous, PowerW, storage 0, tariff 0). -/
def applyCurrentPower (m : Sharky775) (t : Telegram) : Sharky775 × Telegram :=
  match findKey MeasurementType.Instantaneous ValueInformation.PowerW 0 0 t.values with
  | none => (m, t)
  | some key =>
    match extractDVdouble t.values key with
    | none => (m, t)
    | some (o, v) =>
      ({ m with current_power_kw_ := v },
        addMoreExplanation t (Int.ofNat o) (Explanation.currentPower v))

/-- Guarded extraction of the target date (lines 164-169): wildcard selector
(Unknown, Date, storage 1, tariff 0); the decoded date is formatted into the
target_date_ field. -/
def applyTargetDate (m : Sharky775) (t : Telegram) : Sharky775 × Telegram :=
  match findKey MeasurementType.Unknown ValueInformation.Date 1 0 t.values with
  | none => (m, t)
  | some key =>
    match extractDVdate t.values key with
    | none => (m, t)
    | some (o, d) =>
      let s := strdatetime d
      ({ m with target_date_ := s },
        addMoreExplanation t (Int.ofNat o) (Explanation.targetDate s))

/-- Sharky775::processContent (lines 112-170): the six extraction steps in
source order — info codes (unguarded), total energy, total volume, target
energy, current power, target date. -/
def processContent (m : Sharky775) (t : Telegram) : Sharky775 × Telegram :=
  let p1 := applyInfoCodes m t
  let p2 := applyTotalEnergy p1.1 p1.2
  let p3 := applyTotalVolume p2.1 p2.2
  let p4 := applyTargetEnergy p3.1 p3.2
  let p5 := applyCurrentPower p4.1 p4.2
  applyTargetDate p5.1 p5.2

/-- The DIF/VIF byte sequence 03 06 2C 00 00 from the driver's trace comment
(24-bit instantaneous energy record, 44 kWh). -/
def c4bytes : List Nat := [0x03, 0x06, 0x2C, 0x00, 0x00]

/-- The record the scanner produces for c4bytes. -/
def c4entry : DVEntry :=
  { key := "0306"
    measurement_type := MeasurementType.Instantaneous
    value_information := ValueInformation.EnergyWh
    storage_nr := 0
    tariff := 0
    offset := 2
    payload := [0x2C, 0x00, 0x00]
    scaleExp := 0 }

/-- A telegram carrying exactly the c4bytes record. -/
def c4telegram : Telegram :=
  { payload := c4bytes, values := [c4entry], explanations := [] }

/-- The DIF/VIF byte sequence 42 6C 7F 2A from the driver's trace comment
(16-bit type-G date record at storage number 1). -/
def c5bytes : List Nat := [0x42, 0x6C, 0x7F, 0x2A]

/-- The record the scanner produces for c5bytes. -/
def c5entry : DVEntry :=
  { key := "426C"
    measurement_type := MeasurementType.Instantaneous
    value_information := ValueInformation.Date
    storage_nr := 1
    tariff := 0
    offset := 2
    payload := [0x7F, 0x2A]
    scaleExp := 0 }

/-- A telegram carrying exactly the c5bytes record. -/
def c5telegram : Telegram :=
  { payload := c5bytes, values := [c5entry], explanations := [] }

/-- A telegram with no records at all. -/
def emptyTelegram : Telegram :=
  { payload := [], values := [], explanations := [] }

/-- The vendor-extension info-codes record 01 FF 21 with payload byte 5. -/
def infoEntry : DVEntry :=
  { key := "01FF21"
    measurement_type := MeasurementType.Instantaneous
    value_information := ValueInformation.VendorExtension
    storage_nr := 0
    tariff := 0
    offset := 3
    payload := [0x05]
    scaleExp := 0 }

/-- A telegram carrying exactly the info-codes record. -/
def infoTelegram : Telegram :=
  { payload := [0x01, 0xFF, 0x21, 0x05], values := [infoEntry], explanations := [] }

/-- An energy record whose measurement type is Maximum rather than
Instantaneous (DIF 13), so the driver's selectors must ignore it. -/
def maxEnergyEntry : DVEntry :=
  { key := "1306"
    measurement_type := MeasurementType.Maximum
    value_information := ValueInformation.EnergyWh
    storage_nr := 0
    tariff := 0
    offset := 2
    payload := [0x01, 0x00, 0x00]
    scaleExp := 0 }

/-- A telegram whose only EnergyWh record has measurement type Maximum. -/
def maxEnergyTelegram : Telegram :=
  { payload := [0x13, 0x06, 0x01, 0x00, 0x00]
    values := [maxEnergyEntry]
    explanations := [] }

theorem scale_ne_zero (u : Unit) : scale u ≠ 0 := by
  cases u <;> simp [scale]

theorem assertQuantity_eq_true (u : Unit) (q : Quantity) :
    assertQuantity u q = true ↔ quantityOf u = q := by
  simp [assertQuantity]

theorem extractDVuint8_eq_none {values : List DVEntry} {key : String}
    (h : ∀ e ∈ values, e.key ≠ key) : extractDVuint8 values key = none := by
  have : lookupKey values key = none := by
    simp only [lookupKey, List.find?_eq_none]
    intro e he
    simpa using h e he
  simp [extractDVuint8, this]

theorem applyInfoCodes_frame (m : Sharky775) (t : Telegram) :
    (applyInfoCodes m t).2.values = t.values ∧
      (applyInfoCodes m t).2.payload = t.payload := by
  unfold applyInfoCodes
  split <;> simp [addMoreExplanation]

theorem applyTotalEnergy_frame (m : Sharky775) (t : Telegram) :
    (applyTotalEnergy m t).2.values = t.values ∧
      (applyTotalEnergy m t).2.payload = t.payload := by
  unfold applyTotalEnergy
  split
  · exact ⟨rfl, rfl⟩
  · split <;> simp [addMoreExplanation]

theorem applyTotalVolume_frame (m : Sharky775) (t : Telegram) :
    (applyTotalVolume m t).2.values = t.values ∧
      (applyTotalVolume m t).2.payload = t.payload := by
  unfold applyTotalVolume
  split
  · exact ⟨rfl, rfl⟩
  · split <;> simp [addMoreExplanation]

theorem applyTargetEnergy_frame (m : Sharky775) (t : Telegram) :
    (applyTargetEnergy m t).2.values = t.values ∧
      (applyTargetEnergy m t).2.payload = t.payload := by
  unfold applyTargetEnergy
  split
  · exact ⟨rfl, rfl⟩
  · split <;> simp [addMoreExplanation]

theorem applyCurrentPower_frame (m : Sharky775) (t : Telegram) :
    (applyCurrentPower m t).2.values = t.values ∧
      (applyCurrentPower m t).2.payload = t.payload := by
  unfold applyCurrentPower
  split
  · exact ⟨rfl, rfl⟩
  · split <;> simp [addMoreExplanation]

theorem applyTargetDate_frame (m : Sharky775) (t : Telegram) :
    (applyTargetDate m t).2.values = t.values ∧
      (applyTargetDate m t).2.payload = t.payload := by
  unfold applyTargetDate
  split
  · exact ⟨rfl, rfl⟩
  · split <;> simp [addMoreExplanation]

theorem processContent_telegram_frame (m : Sharky775) (t : Telegram) :
    (processContent m t).2.values = t.values ∧
      (processContent m t).2.payload = t.payload := by
  unfold processContent
  refine ⟨?_, ?_⟩
  · exact (applyTargetDate_frame _ _).1.trans
      ((applyCurrentPower_frame _ _).1.trans
        ((applyTargetEnergy_frame _ _).1.trans
          ((applyTotalVolume_frame _ _).1.trans
            ((applyTotalEnergy_frame _ _).1.trans (applyInfoCodes_frame _ _).1))))
  · exact (applyTargetDate_frame _ _).2.trans
      ((applyCurrentPower_frame _ _).2.trans
        ((applyTargetEnergy_frame _ _).2.trans
          ((applyTotalVolume_frame _ _).2.trans
            ((applyTotalEnergy_frame _ _).2.trans (applyInfoCodes_frame _ _).2))))

theorem applyInfoCodes_keeps (m : Sharky775) (t : Telegram) :
    (applyInfoCodes m t).1.total_energy_kwh_ = m.total_energy_kwh_ ∧
      (applyInfoCodes m t).1.total_volume_m3_ = m.total_volume_m3_ ∧
      (applyInfoCodes m t).1.target_energy_kwh_ = m.target_energy_kwh_ ∧
      (applyInfoCodes m t).1.current_power_kw_ = m.current_power_kw_ ∧
      (applyInfoCodes m t).1.target_date_ = m.target_date_ := by
  unfold applyInfoCodes
  split <;> simp

theorem applyTotalEnergy_keeps (m : Sharky775) (t : Telegram) :
    (applyTotalEnergy m t).1.info_codes_ = m.info_codes_ ∧
      (applyTotalEnergy m t).1.total_volume_m3_ = m.total_volume_m3_ ∧
      (applyTotalEnergy m t).1.target_energy_kwh_ = m.target_energy_kwh_ ∧
      (applyTotalEnergy m t).1.current_power_kw_ = m.current_power_kw_ ∧
      (applyTotalEnergy m t).1.target_date_ = m.target_date_ := by
  unfold applyTotalEnergy
  split
  · simp
  · split <;> simp

theorem applyTotalVolume_keeps (m : Sharky775) (t : Telegram) :
    (applyTotalVolume m t).1.info_codes_ = m.info_codes_ ∧
      (applyTotalVolume m t).1.total_energy_kwh_ = m.total_energy_kwh_ ∧
      (applyTotalVolume m t).1.target_energy_kwh_ = m.target_energy_kwh_ ∧
      (applyTotalVolume m t).1.current_power_kw_ = m.current_power_kw_ ∧
      (applyTotalVolume m t).1.target_date_ = m.target_date_ := by
  unfold applyTotalVolume
  split
  · simp
  · split <;> simp

theorem applyTargetEnergy_keeps (m : Sharky775) (t : Telegram) :
    (applyTargetEnergy m t).1.info_codes_ = m.info_codes_ ∧
      (applyTargetEnergy m t).1.total_energy_kwh_ = m.total_energy_kwh_ ∧
      (applyTargetEnergy m t).1.total_volume_m3_ = m.total_volume_m3_ ∧
      (applyTargetEnergy m t).1.current_power_kw_ = m.current_power_kw_ ∧
      (applyTargetEnergy m t).1.target_date_ = m.target_date_ := by
  unfold applyTargetEnergy
  split
  · simp
  · split <;> simp

theorem applyCurrentPower_keeps (m : Sharky775) (t : Telegram) :
    (applyCurrentPower m t).1.info_codes_ = m.info_codes_ ∧
      (applyCurrentPower m t).1.total_energy_kwh_ = m.total_energy_kwh_ ∧
      (applyCurrentPower m t).1.total_volume_m3_ = m.total_volume_m3_ ∧
      (applyCurrentPower m t).1.target_energy_kwh_ = m.target_energy_kwh_ ∧
      (applyCurrentPower m t).1.target_date_ = m.target_date_ := by
  unfold applyCurrentPower
  split
  · simp
  · split <;> simp

theorem applyTargetDate_keeps (m : Sharky775) (t : Telegram) :
    (applyTargetDate m t).1.info_codes_ = m.info_codes_ ∧
      (applyTargetDate m t).1.total_energy_kwh_ = m.total_energy_kwh_ ∧
      (applyTargetDate m t).1.total_volume_m3_ = m.total_volume_m3_ ∧
      (applyTargetDate m t).1.target_energy_kwh_ = m.target_energy_kwh_ ∧
      (applyTargetDate m t).1.current_power_kw_ = m.current_power_kw_ := by
  unfold applyTargetDate
  split
  · simp
  · split <;> simp

theorem findKey_eq_none_iff (mt : MeasurementType) (vi : ValueInformation)
    (st tr : Nat) (values : List DVEntry) :
    findKey mt vi st tr values = none ↔
      ∀ e ∈ values, dvMatches mt vi st tr e = false := by
  simp [findKey, List.find?_eq_none]

theorem findKey_some_extract (mt : MeasurementType) (vi : ValueInformation)
    (st tr : Nat) (values : List DVEntry) (k : String)
    (h : findKey mt vi st tr values = some k) :
    ∃ o v, extractDVdouble values k = some (o, v) := by
  simp only [findKey, Option.map_eq_some'] at h
  obtain ⟨e, he, hk⟩ := h
  have hmem := List.mem_of_find?_eq_some he
  have : (lookupKey values k).isSome := by
    unfold lookupKey
    rw [List.find?_isSome]
    exact ⟨e, hmem, by simp [hk]⟩
  obtain ⟨e2, he2⟩ := Option.isSome_iff_exists.mp this
  exact ⟨e2.offset, dvValue e2, by simp [extractDVdouble, he2]⟩

theorem applyTotalVolume_of_none (m : Sharky775) (t : Telegram)
    (h : findKey MeasurementType.Instantaneous ValueInformation.Volume 0 0 t.values = none) :
    applyTotalVolume m t = (m, t) := by
  unfold applyTotalVolume
  rw [h]

theorem applyTotalEnergy_of_none (m : Sharky775) (t : Telegram)
    (h : findKey MeasurementType.Instantaneous ValueInformation.EnergyWh 0 0 t.values = none) :
    applyTotalEnergy m t = (m, t) := by
  unfold applyTotalEnergy
  rw [h]

theorem applyTargetEnergy_of_none (m : Sharky775) (t : Telegram)
    (h : findKey MeasurementType.Instantaneous ValueInformation.EnergyWh 1 0 t.values = none) :
    applyTargetEnergy m t = (m, t) := by
  unfold applyTargetEnergy
  rw [h]

theorem applyCurrentPower_of_none (m : Sharky775) (t : Telegram)
    (h : findKey MeasurementType.Instantaneous ValueInformation.PowerW 0 0 t.values = none) :
    applyCurrentPower m t = (m, t) := by
  unfold applyCurrentPower
  rw [h]

theorem applyTotalEnergy_of_some (m : Sharky775) (t : Telegram) (k : String)
    (o : Nat) (v : ℚ)
    (h : findKey MeasurementType.Instantaneous ValueInformation.EnergyWh 0 0 t.values = some k)
    (h2 : extractDVdouble t.values k = some (o, v)) :
    (applyTotalEnergy m t).1.total_energy_kwh_ = v := by
  unfold applyTotalEnergy
  simp [h, h2]

theorem applyTargetEnergy_of_some (m : Sharky775) (t : Telegram) (k : String)
    (o : Nat) (v : ℚ)
    (h : findKey MeasurementType.Instantaneous ValueInformation.EnergyWh 1 0 t.values = some k)
    (h2 : extractDVdouble t.values k = some (o, v)) :
    (applyTargetEnergy m t).1.target_energy_kwh_ = v := by
  unfold applyTargetEnergy
  simp [h, h2]

theorem applyCurrentPower_of_some (m : Sharky775) (t : Telegram) (k : String)
    (o : Nat) (v : ℚ)
    (h : findKey MeasurementType.Instantaneous ValueInformation.PowerW 0 0 t.values = some k)
    (h2 : extractDVdouble t.values k = some (o, v)) :
    (applyCurrentPower m t).1.current_power_kw_ = v := by
  unfold applyCurrentPower
  simp [h, h2]

theorem applyInfoCodes_expl (m : Sharky775) (t : Telegram) :
    ∃ o, (applyInfoCodes m t).2.explanations =
      t.explanations ++ [(o, Explanation.infoCodes "")] := by
  unfold applyInfoCodes
  rcases hE : extractDVuint8 t.values "01FF21" with _ | ⟨o, v⟩
  · exact ⟨-1, by simp [hE, addMoreExplanation, Sharky775.status]⟩
  · exact ⟨Int.ofNat o, by simp [hE, addMoreExplanation, Sharky775.status]⟩

theorem applyInfoCodes_expl_missing (m : Sharky775) (t : Telegram)
    (h : extractDVuint8 t.values "01FF21" = none) :
    (applyInfoCodes m t).2.explanations =
      t.explanations ++ [((-1 : Int), Explanation.infoCodes "")] := by
  unfold applyInfoCodes
  simp [h, addMoreExplanation, Sharky775.status]

theorem applyTotalEnergy_expl (m : Sharky775) (t : Telegram) :
    ∃ l, (applyTotalEnergy m t).2.explanations = t.explanations ++ l := by
  unfold applyTotalEnergy
  split
  · exact ⟨[], by simp⟩
  · split
    · exact ⟨[], by simp⟩
    · exact ⟨_, rfl⟩

theorem applyTotalVolume_expl (m : Sharky775) (t : Telegram) :
    ∃ l, (applyTotalVolume m t).2.explanations = t.explanations ++ l := by
  unfold applyTotalVolume
  split
  · exact ⟨[], by simp⟩
  · split
    · exact ⟨[], by simp⟩
    · exact ⟨_, rfl⟩

theorem applyTargetEnergy_expl (m : Sharky775) (t : Telegram) :
    ∃ l, (applyTargetEnergy m t).2.explanations = t.explanations ++ l := by
  unfold applyTargetEnergy
  split
  · exact ⟨[], by simp⟩
  · split
    · exact ⟨[], by simp⟩
    · exact ⟨_, rfl⟩

theorem applyCurrentPower_expl (m : Sharky775) (t : Telegram) :
    ∃ l, (applyCurrentPower m t).2.explanations = t.explanations ++ l := by
  unfold applyCurrentPower
  split
  · exact ⟨[], by simp⟩
  · split
    · exact ⟨[], by simp⟩
    · exact ⟨_, rfl⟩

theorem applyTargetDate_expl (m : Sharky775) (t : Telegram) :
    ∃ l, (applyTargetDate m t).2.explanations = t.explanations ++ l := by
  unfold applyTargetDate
  split
  · exact ⟨[], by simp⟩
  · split
    · exact ⟨[], by simp⟩
    · exact ⟨_, rfl⟩

theorem processContent_total_volume_of_none (m : Sharky775) (t : Telegram)
    (h : findKey MeasurementType.Instantaneous ValueInformation.Volume 0 0 t.values = none) :
    (processContent m t).1.total_volume_m3_ = m.total_volume_m3_ := by
  unfold processContent
  refine ((applyTargetDate_keeps _ _).2.2.1).trans
    (((applyCurrentPower_keeps _ _).2.2.1).trans
      (((applyTargetEnergy_keeps _ _).2.2.1).trans ?_))
  have hv : (applyTotalEnergy (applyInfoCodes m t).1 (applyInfoCodes m t).2).2.values
      = t.values :=
    (applyTotalEnergy_frame _ _).1.trans (applyInfoCodes_frame _ _).1
  rw [applyTotalVolume_of_none _ _ (by rw [hv]; exact h)]
  exact ((applyTotalEnergy_keeps _ _).2.1).trans (applyInfoCodes_keeps _ _).2.1

theorem processContent_total_energy_of_none (m : Sharky775) (t : Telegram)
    (h : findKey MeasurementType.Instantaneous ValueInformation.EnergyWh 0 0 t.values = none) :
    (processContent m t).1.total_energy_kwh_ = m.total_energy_kwh_ := by
  unfold processContent
  refine ((applyTargetDate_keeps _ _).2.1).trans
    (((applyCurrentPower_keeps _ _).2.1).trans
      (((applyTargetEnergy_keeps _ _).2.1).trans
        (((applyTotalVolume_keeps _ _).2.1).trans ?_)))
  have hv : (applyInfoCodes m t).2.values = t.values := (applyInfoCodes_frame _ _).1
  rw [applyTotalEnergy_of_none _ _ (by rw [hv]; exact h)]
  exact (applyInfoCodes_keeps _ _).1

theorem processContent_total_energy_of_some (m : Sharky775) (t : Telegram)
    (k : String) (o : Nat) (v : ℚ)
    (h : findKey MeasurementType.Instantaneous ValueInformation.EnergyWh 0 0 t.values = some k)
    (h2 : extractDVdouble t.values k = some (o, v)) :
    (processContent m t).1.total_energy_kwh_ = v := by
  unfold processContent
  refine ((applyTargetDate_keeps _ _).2.1).trans
    (((applyCurrentPower_keeps _ _).2.1).trans
      (((applyTargetEnergy_keeps _ _).2.1).trans
        (((applyTotalVolume_keeps _ _).2.1).trans ?_)))
  have hv : (applyInfoCodes m t).2.values = t.values := (applyInfoCodes_frame _ _).1
  exact applyTotalEnergy_of_some _ _ k o v (by rw [hv]; exact h) (by rw [hv]; exact h2)

theorem processContent_target_energy_of_none (m : Sharky775) (t : Telegram)
    (h : findKey MeasurementType.Instantaneous ValueInformation.EnergyWh 1 0 t.values = none) :
    (processContent m t).1.target_energy_kwh_ = m.target_energy_kwh_ := by
  unfold processContent
  refine ((applyTargetDate_keeps _ _).2.2.2.1).trans
    (((applyCurrentPower_keeps _ _).2.2.2.1).trans ?_)
  have hv : (applyTotalVolume (applyTotalEnergy (applyInfoCodes m t).1
      (applyInfoCodes m t).2).1 (applyTotalEnergy (applyInfoCodes m t).1
        (applyInfoCodes m t).2).2).2.values = t.values :=
    (applyTotalVolume_frame _ _).1.trans
      ((applyTotalEnergy_frame _ _).1.trans (applyInfoCodes_frame _ _).1)
  rw [applyTargetEnergy_of_none _ _ (by rw [hv]; exact h)]
  exact ((applyTotalVolume_keeps _ _).2.2.1).trans
    (((applyTotalEnergy_keeps _ _).2.2.1).trans (applyInfoCodes_keeps _ _).2.2.1)

theorem processContent_target_energy_of_some (m : Sharky775) (t : Telegram)
    (k : String) (o : Nat) (v : ℚ)
    (h : findKey MeasurementType.Instantaneous ValueInformation.EnergyWh 1 0 t.values = some k)
    (h2 : extractDVdouble t.values k = some (o, v)) :
    (processContent m t).1.target_energy_kwh_ = v := by
  unfold processContent
  refine ((applyTargetDate_keeps _ _).2.2.2.1).trans
    (((applyCurrentPower_keeps _ _).2.2.2.1).trans ?_)
  have hv : (applyTotalVolume (applyTotalEnergy (applyInfoCodes m t).1
      (applyInfoCodes m t).2).1 (applyTotalEnergy (applyInfoCodes m t).1
        (applyInfoCodes m t).2).2).2.values = t.values :=
    (applyTotalVolume_frame _ _).1.trans
      ((applyTotalEnergy_frame _ _).1.trans (applyInfoCodes_frame _ _).1)
  exact applyTargetEnergy_of_some _ _ k o v (by rw [hv]; exact h) (by rw [hv]; exact h2)

theorem processContent_current_power_of_none (m : Sharky775) (t : Telegram)
    (h : findKey MeasurementType.Instantaneous ValueInformation.PowerW 0 0 t.values = none) :
    (processContent m t).1.current_power_kw_ = m.current_power_kw_ := by
  unfold processContent
  refine ((applyTargetDate_keeps _ _).2.2.2.2).trans ?_
  have hv : (applyTargetEnergy (applyTotalVolume (applyTotalEnergy (applyInfoCodes m t).1
      (applyInfoCodes m t).2).1 (applyTotalEnergy (applyInfoCodes m t).1
        (applyInfoCodes m t).2).2).1 (applyTotalVolume (applyTotalEnergy
          (applyInfoCodes m t).1 (applyInfoCodes m t).2).1 (applyTotalEnergy
            (applyInfoCodes m t).1 (applyInfoCodes m t).2).2).2).2.values = t.values :=
    (applyTargetEnergy_frame _ _).1.trans
      ((applyTotalVolume_frame _ _).1.trans
        ((applyTotalEnergy_frame _ _).1.trans (applyInfoCodes_frame _ _).1))
  rw [applyCurrentPower_of_none _ _ (by rw [hv]; exact h)]
  exact ((applyTargetEnergy_keeps _ _).2.2.2.1).trans
    (((applyTotalVolume_keeps _ _).2.2.2.1).trans
      (((applyTotalEnergy_keeps _ _).2.2.2.1).trans (applyInfoCodes_keeps _ _).2.2.2.1))

theorem processContent_current_power_of_some (m : Sharky775) (t : Telegram)
    (k : String) (o : Nat) (v : ℚ)
    (h : findKey MeasurementType.Instantaneous ValueInformation.PowerW 0 0 t.values = some k)
    (h2 : extractDVdouble t.values k = some (o, v)) :
    (processContent m t).1.current_power_kw_ = v := by
  unfold processContent
  refine ((applyTargetDate_keeps _ _).2.2.2.2).trans ?_
  have hv : (applyTargetEnergy (applyTotalVolume (applyTotalEnergy (applyInfoCodes m t).1
      (applyInfoCodes m t).2).1 (applyTotalEnergy (applyInfoCodes m t).1
        (applyInfoCodes m t).2).2).1 (applyTotalVolume (applyTotalEnergy
          (applyInfoCodes m t).1 (applyInfoCodes m t).2).1 (applyTotalEnergy
            (applyInfoCodes m t).1 (applyInfoCodes m t).2).2).2).2.values = t.values :=
    (applyTargetEnergy_frame _ _).1.trans
      ((applyTotalVolume_frame _ _).1.trans
        ((applyTotalEnergy_frame _ _).1.trans (applyInfoCodes_frame _ _).1))
  exact applyCurrentPower_of_some _ _ k o v (by rw [hv]; exact h) (by rw [hv]; exact h2)

theorem processContent_info_codes_of_some (m : Sharky775) (t : Telegram)
    (o b : Nat) (h : extractDVuint8 t.values "01FF21" = some (o, b)) :
    (processContent m t).1.info_codes_ = b := by
  unfold processContent
  refine ((applyTargetDate_keeps _ _).1).trans
    (((applyCurrentPower_keeps _ _).1).trans
      (((applyTargetEnergy_keeps _ _).1).trans
        (((applyTotalVolume_keeps _ _).1).trans
          (((applyTotalEnergy_keeps _ _).1).trans ?_))))
  unfold applyInfoCodes
  rw [h]

theorem processContent_expl (m : Sharky775) (t : Telegram) :
    ∃ o l, (processContent m t).2.explanations =
      t.explanations ++ ((o, Explanation.infoCodes "") :: l) := by
  unfold processContent
  obtain ⟨o1, e1⟩ := applyInfoCodes_expl m t
  obtain ⟨l2, e2⟩ := applyTotalEnergy_expl (applyInfoCodes m t).1 (applyInfoCodes m t).2
  obtain ⟨l3, e3⟩ := applyTotalVolume_expl _ _
  obtain ⟨l4, e4⟩ := applyTargetEnergy_expl _ _
  obtain ⟨l5, e5⟩ := applyCurrentPower_expl _ _
  obtain ⟨l6, e6⟩ := applyTargetDate_expl _ _
  refine ⟨o1, l2 ++ l3 ++ l4 ++ l5 ++ l6, ?_⟩
  rw [e6, e5, e4, e3, e2, e1]
  simp [List.append_assoc]

theorem processContent_expl_missing (m : Sharky775) (t : Telegram)
    (h : extractDVuint8 t.values "01FF21" = none) :
    ∃ l, (processContent m t).2.explanations =
      t.explanations ++ (((-1 : Int), Explanation.infoCodes "") :: l) := by
  unfold processContent
  have e1 := applyInfoCodes_expl_missing m t h
  obtain ⟨l2, e2⟩ := applyTotalEnergy_expl (applyInfoCodes m t).1 (applyInfoCodes m t).2
  obtain ⟨l3, e3⟩ := applyTotalVolume_expl _ _
  obtain ⟨l4, e4⟩ := applyTargetEnergy_expl _ _
  obtain ⟨l5, e5⟩ := applyCurrentPower_expl _ _
  obtain ⟨l6, e6⟩ := applyTargetDate_expl _ _
  refine ⟨l2 ++ l3 ++ l4 ++ l5 ++ l6, ?_⟩
  rw [e6, e5, e4, e3, e2, e1]
  simp [List.append_assoc]

/-- C1: if a telegram's record set contains no record matching the selector
(Instantaneous, Volume, storage 0, tariff 0), then processContent leaves the
sticky field total_volume_m3_ — and hence the value reported by totalVolume —
unchanged. -/
theorem sharky775_sticky_total_volume (m : Sharky775) (t : Telegram)
    (h : ∀ e ∈ t.values,
      dvMatches MeasurementType.Instantaneous ValueInformation.Volume 0 0 e = false) :
    (processContent m t).1.total_volume_m3_ = m.total_volume_m3_ ∧
      ∀ u, (processContent m t).1.totalVolume u = m.totalVolume u := by
  have hf := processContent_total_volume_of_none m t
    ((findKey_eq_none_iff _ _ _ _ _).mpr h)
  refine ⟨hf, fun u => ?_⟩
  unfold Sharky775.totalVolume
  rw [hf]

/-- Witness for C1: a driver holding 0.99 m3 processes a telegram with an
energy record but no Volume record and keeps 0.99 m3. -/
theorem sharky775_sticky_total_volume_witness :
    (∀ e ∈ c4telegram.values,
      dvMatches MeasurementType.Instantaneous ValueInformation.Volume 0 0 e = false) ∧
    (processContent { initSharky775 with total_volume_m3_ := 99 / 100 }
      c4telegram).1.total_volume_m3_ = 99 / 100 :=
  ⟨by decide,
    (sharky775_sticky_total_volume
      { initSharky775 with total_volume_m3_ := 99 / 100 } c4telegram (by decide)).1⟩

/-- C2: every accessor fails fast (returns none) when the requested unit is
not of the expected quantity, before any conversion occurs; in particular
assertQuantity(KWH, Volume) always fails. -/
theorem sharky775_quantity_mismatch_fail_fast :
    assertQuantity Unit.KWH Quantity.Volume = false ∧
    (∀ (m : Sharky775) (u : Unit), quantityOf u ≠ Quantity.Volume →
      m.totalVolume u = none) ∧
    (∀ (m : Sharky775) (u : Unit), quantityOf u ≠ Quantity.Energy →
      m.totalEnergyConsumption u = none) ∧
    (∀ (m : Sharky775) (u : Unit), quantityOf u ≠ Quantity.Energy →
      m.targetEnergyConsumption u = none) ∧
    (∀ (m : Sharky775) (u : Unit), quantityOf u ≠ Quantity.Power →
      m.currentPowerConsumption u = none) := by
  refine ⟨by decide, ?_, ?_, ?_, ?_⟩
  · intro m u h
    simp [Sharky775.totalVolume, assertQuantity, h]
  · intro m u h
    simp [Sharky775.totalEnergyConsumption, assertQuantity, h]
  · intro m u h
    simp [Sharky775.targetEnergyConsumption, assertQuantity, h]
  · intro m u h
    simp [Sharky775.currentPowerConsumption, assertQuantity, h]

/-- Witness for C2: requesting the total volume in kWh, the energies in m3 and
the power in Wh all fail fast on a concrete driver state. -/
theorem sharky775_quantity_mismatch_fail_fast_witness :
    quantityOf Unit.KWH ≠ Quantity.Volume ∧
    initSharky775.totalVolume Unit.KWH = none ∧
    initSharky775.totalEnergyConsumption Unit.M3 = none ∧
    initSharky775.targetEnergyConsumption Unit.M3 = none ∧
    initSharky775.currentPowerConsumption Unit.WH = none :=
  ⟨by decide,
    sharky775_quantity_mismatch_fail_fast.2.1 initSharky775 Unit.KWH (by decide),
    sharky775_quantity_mismatch_fail_fast.2.2.1 initSharky775 Unit.M3 (by decide),
    sharky775_quantity_mismatch_fail_fast.2.2.2.1 initSharky775 Unit.M3 (by decide),
    sharky775_quantity_mismatch_fail_fast.2.2.2.2 initSharky775 Unit.WH (by decide)⟩

/-- C3: for units of the right quantity each accessor returns
convert(stored_native_value, native_unit, u) with the native units kWh, m3 and
kW, and conversion is the pure linear scale value * scale(from) / scale(to)
with no offset term. -/
theorem sharky775_native_unit_accessors :
    (∀ (m : Sharky775) (u : Unit), quantityOf u = Quantity.Energy →
      m.totalEnergyConsumption u = some (convert m.total_energy_kwh_ Unit.KWH u)) ∧
    (∀ (m : Sharky775) (u : Unit), quantityOf u = Quantity.Energy →
      m.targetEnergyConsumption u = some (convert m.target_energy_kwh_ Unit.KWH u)) ∧
    (∀ (m : Sharky775) (u : Unit), quantityOf u = Quantity.Volume →
      m.totalVolume u = some (convert m.total_volume_m3_ Unit.M3 u)) ∧
    (∀ (m : Sharky775) (u : Unit), quantityOf u = Quantity.Power →
      m.currentPowerConsumption u = some (convert m.current_power_kw_ Unit.KW u)) ∧
    (∀ (v : ℚ) (f g : Unit), convert v f g = v * scale f / scale g) ∧
    (∀ (f g : Unit), convert 0 f g = 0) := by
  refine ⟨?_, ?_, ?_, ?_, fun v f g => rfl, ?_⟩
  · intro m u h
    simp [Sharky775.totalEnergyConsumption, assertQuantity, h]
  · intro m u h
    simp [Sharky775.targetEnergyConsumption, assertQuantity, h]
  · intro m u h
    simp [Sharky775.totalVolume, assertQuantity, h]
  · intro m u h
    simp [Sharky775.currentPowerConsumption, assertQuantity, h]
  · intro f g
    simp [convert]

/-- Witness for C3: a stored total of 44 kWh is reported as 158.4 when MJ is
requested. -/
theorem sharky775_native_unit_accessors_witness :
    quantityOf Unit.MJ = Quantity.Energy ∧
    ({ initSharky775 with total_energy_kwh_ := 44 } :
      Sharky775).totalEnergyConsumption Unit.MJ = some (158.4 : ℚ) := by
  refine ⟨by decide, ?_⟩
  have h := sharky775_native_unit_accessors.1
    { initSharky775 with total_energy_kwh_ := 44 } Unit.MJ (by decide)
  rw [h]
  norm_num [convert, scale, initSharky775]

/-- C6: unit conversion is a group action — converting there and back is the
identity for any two units of the same quantity, and converting a value to
its own unit is exactly the identity. -/
theorem wmbus_convert_group_action :
    (∀ (v : ℚ) (A B : Unit), quantityOf A = quantityOf B →
      convert (convert v A B) B A = v) ∧
    (∀ (v : ℚ) (A : Unit), convert v A A = v) := by
  constructor
  · intro v A B _
    unfold convert
    have hA := scale_ne_zero A
    have hB := scale_ne_zero B
    field_simp
  · intro v A
    unfold convert
    have hA := scale_ne_zero A
    field_simp

/-- Witness for C6: 2 kWh converted to MJ and back is 2 kWh. -/
theorem wmbus_convert_group_action_witness :
    quantityOf Unit.KWH = quantityOf Unit.MJ ∧
    convert (convert 2 Unit.KWH Unit.MJ) Unit.MJ Unit.KWH = 2 :=
  ⟨by decide, wmbus_convert_group_action.1 2 Unit.KWH Unit.MJ (by decide)⟩

/-- C7: status() returns the empty string for every driver state, while
processContent still faithfully stores the byte decoded from the record keyed
01FF21 into info_codes_. -/
theorem sharky775_status_stub :
    (∀ m : Sharky775, m.status = "") ∧
    (∀ (m : Sharky775) (t : Telegram) (o b : Nat),
      extractDVuint8 t.values "01FF21" = some (o, b) →
      (processContent m t).1.info_codes_ = b) :=
  ⟨fun _ => rfl, fun m t o b h => processContent_info_codes_of_some m t o b h⟩

/-- Witness for C7: a telegram whose 01FF21 record carries byte 5 makes
processContent store 5 in info_codes_. -/
theorem sharky775_status_stub_witness :
    extractDVuint8 infoTelegram.values "01FF21" = some (3, 5) ∧
    (processContent initSharky775 infoTelegram).1.info_codes_ = 5 :=
  ⟨by decide, sharky775_status_stub.2 initSharky775 infoTelegram 3 5 (by decide)⟩

/-- C8: processContent appends an info-codes explanation on every telegram —
unconditionally, unlike the five findKey-guarded extractions — even when no
record with key 01FF21 exists, in which case the reported offset is -1. -/
theorem sharky775_unguarded_info_codes (m : Sharky775) (t : Telegram) :
    (∃ o l, (processContent m t).2.explanations =
      t.explanations ++ ((o, Explanation.infoCodes "") :: l)) ∧
    ((∀ e ∈ t.values, e.key ≠ "01FF21") →
      ∃ l, (processContent m t).2.explanations =
        t.explanations ++ (((-1 : Int), Explanation.infoCodes "") :: l)) :=
  ⟨processContent_expl m t,
    fun h => processContent_expl_missing m t (extractDVuint8_eq_none h)⟩

/-- Witness for C8: a telegram without any 01FF21 record still gains an
info-codes explanation at offset -1. -/
theorem sharky775_unguarded_info_codes_witness :
    (∀ e ∈ emptyTelegram.values, e.key ≠ "01FF21") ∧
    ∃ l, (processContent initSharky775 emptyTelegram).2.explanations =
      emptyTelegram.explanations ++ (((-1 : Int), Explanation.infoCodes "") :: l) :=
  ⟨by decide,
    (sharky775_unguarded_info_codes initSharky775 emptyTelegram).2 (by decide)⟩

/-- C9: the numeric sticky fields are assigned exactly when findKey succeeds
for their exact selector: total_energy_kwh_ requires (Instantaneous, EnergyWh,
storage 0, tariff 0) — so a telegram whose EnergyWh records all differ in
measurement type, storage number or tariff never changes it — and analogously
target_energy_kwh_ requires storage 1 and current_power_kw_ requires PowerW at
storage 0. -/
theorem sharky775_selector_specificity (m : Sharky775) (t : Telegram) :
    (findKey MeasurementType.Instantaneous ValueInformation.EnergyWh 0 0 t.values = none →
      (processContent m t).1.total_energy_kwh_ = m.total_energy_kwh_) ∧
    (∀ k o v,
      findKey MeasurementType.Instantaneous ValueInformation.EnergyWh 0 0 t.values = some k →
      extractDVdouble t.values k = some (o, v) →
      (processContent m t).1.total_energy_kwh_ = v) ∧
    ((∀ e ∈ t.values, e.value_information = ValueInformation.EnergyWh →
      e.measurement_type ≠ MeasurementType.Instantaneous ∨ e.storage_nr ≠ 0 ∨ e.tariff ≠ 0) →
      (processContent m t).1.total_energy_kwh_ = m.total_energy_kwh_) ∧
    (findKey MeasurementType.Instantaneous ValueInformation.EnergyWh 1 0 t.values = none →
      (processContent m t).1.target_energy_kwh_ = m.target_energy_kwh_) ∧
    (∀ k o v,
      findKey MeasurementType.Instantaneous ValueInformation.EnergyWh 1 0 t.values = some k →
      extractDVdouble t.values k = some (o, v) →
      (processContent m t).1.target_energy_kwh_ = v) ∧
    (findKey MeasurementType.Instantaneous ValueInformation.PowerW 0 0 t.values = none →
      (processContent m t).1.current_power_kw_ = m.current_power_kw_) ∧
    (∀ k o v,
      findKey MeasurementType.Instantaneous ValueInformation.PowerW 0 0 t.values = some k →
      extractDVdouble t.values k = some (o, v) →
      (processContent m t).1.current_power_kw_ = v) := by
  refine ⟨processContent_total_energy_of_none m t, ?_, ?_,
    processContent_target_energy_of_none m t, ?_,
    processContent_current_power_of_none m t, ?_⟩
  · intro k o v h h2
    exact processContent_total_energy_of_some m t k o v h h2
  · intro h
    apply processContent_total_energy_of_none
    rw [findKey_eq_none_iff]
    intro e he
    by_cases hvi : e.value_information = ValueInformation.EnergyWh
    · rcases h e he hvi with h1 | h1 | h1 <;> simp [dvMatches] <;> tauto
    · simp [dvMatches]
      tauto
  · intro k o v h h2
    exact processContent_target_energy_of_some m t k o v h h2
  · intro k o v h h2
    exact processContent_current_power_of_some m t k o v h h2

/-- Witness for C9: a telegram whose only EnergyWh record has measurement type
Maximum leaves total_energy_kwh_ untouched. -/
theorem sharky775_selector_specificity_witness :
    (∀ e ∈ maxEnergyTelegram.values,
      e.value_information = ValueInformation.EnergyWh →
      e.measurement_type ≠ MeasurementType.Instantaneous ∨
        e.storage_nr ≠ 0 ∨ e.tariff ≠ 0) ∧
    (processContent initSharky775 maxEnergyTelegram).1.total_energy_kwh_ = 0 :=
  ⟨by decide,
    (sharky775_selector_specificity initSharky775 maxEnergyTelegram).2.2.1 (by decide)⟩

/-- C10: processContent mutates only the driver's own fields and the
telegram's annotation side-channel — the telegram's payload bytes and parsed
record map are unchanged, and the explanation list is only appended to. -/
theorem sharky775_frame_condition (m : Sharky775) (t : Telegram) :
    (processContent m t).2.payload = t.payload ∧
    (processContent m t).2.values = t.values ∧
    ∃ l, (processContent m t).2.explanations = t.explanations ++ l := by
  obtain ⟨hv, hp⟩ := processContent_telegram_frame m t
  obtain ⟨o, l, he⟩ := processContent_expl m t
  exact ⟨hp, hv, (o, Explanation.infoCodes "") :: l, he⟩

/-- C4: the byte sequence 03 06 2C 00 00 decodes to exactly one record
(Instantaneous, EnergyWh, storage 0); its 24-bit little-endian payload scaled
by the VIF exponent is 44 kWh, processContent stores 44 in total_energy_kwh_,
and converting 44 kWh to MJ gives 158.4. -/
theorem sharky775_energy_decode_end_to_end :
    scan c4bytes = some [c4entry] ∧
    c4entry.measurement_type = MeasurementType.Instantaneous ∧
    c4entry.value_information = ValueInformation.EnergyWh ∧
    c4entry.storage_nr = 0 ∧
    dvValue c4entry = 44 ∧
    (∀ m : Sharky775, (processContent m c4telegram).1.total_energy_kwh_ = 44) ∧
    convert 44 Unit.KWH Unit.MJ = (158.4 : ℚ) := by
  have hv44 : dvValue c4entry = 44 := by
    norm_num [dvValue, c4entry, payloadLE, tenPow]
  have hl : lookupKey c4telegram.values "0306" = some c4entry := by decide
  have h2 : extractDVdouble c4telegram.values "0306" = some (2, 44) := by
    simp only [extractDVdouble, hl, Option.map_some']
    rw [hv44]
    rfl
  refine ⟨by decide, rfl, rfl, rfl, hv44, ?_, by norm_num [convert, scale]⟩
  intro m
  exact processContent_total_energy_of_some m c4telegram "0306" 2 44 (by decide) h2

/-- C5: the byte sequence 42 6C 7F 2A decodes to a Date record at storage
number 1 whose packed value 0x2A7F is the date 2019-10-31; the wildcard
selector (Unknown, Date, 1, 0) finds it although its measurement type is
Instantaneous, and processContent stores the formatted date in target_date_. -/
theorem sharky775_date_decode_wildcard :
    scan c5bytes = some [c5entry] ∧
    c5entry.value_information = ValueInformation.Date ∧
    c5entry.storage_nr = 1 ∧
    decodeDateG 0x7F 0x2A = { year := 2019, month := 10, day := 31 } ∧
    c5entry.measurement_type = MeasurementType.Instantaneous ∧
    c5entry.measurement_type ≠ MeasurementType.Unknown ∧
    findKey MeasurementType.Unknown ValueInformation.Date 1 0 c5telegram.values =
      some c5entry.key ∧
    (∀ m : Sharky775,
      (processContent m c5telegram).1.target_date_ = "2019-10-31 00:00") := by
  refine ⟨by decide, rfl, rfl, by decide, rfl, by decide, by decide, ?_⟩
  intro m
  rfl

end Wmbus
